import Mathlib

/-!
Verification of the egress-control and audit layer of the OSINT_Recon
pipeline: the network policy guard (src/osint_posture/utils/network.py),
the guarded HTTP client (src/osint_posture/utils/http.py) and the guarded
DNS client (src/osint_posture/utils/dns.py), shallowly embedded in Lean.

Conventions of the embedding:
* Python mutation is explicit state passing: a method that mutates
  `NetworkPolicy` returns the new `NetworkPolicy` together with its result.
* A raised `NetworkPolicyError` becomes `Except.error msg` carrying the
  message string of the Python exception.
* Wall-clock / monotonic time is an explicit `Nat` parameter `now`
  (seconds); ledger timestamps and durations, which the claims never
  inspect, are abstracted to `0`.
* DNS resolution during the safety check (`socket.getaddrinfo`) is an
  explicit oracle `String → Option (List IpInfo)`; `Option.none` models an
  `OSError` raised by the resolver.
* The HTTP transport (`httpx`) is an explicit oracle mapping the attempt
  index to either a streamed response (status code and the byte sizes of
  the streamed chunks) or a raised transport exception.
-/

/-- Operating mode (src/osint_posture/models/config.py, class Mode). -/
inductive Mode where
  | passive
  | low_noise
deriving DecidableEq, Repr

/-- DNS query policy (src/osint_posture/models/config.py, class DnsPolicy). -/
inductive DnsPolicy where
  | none
  | minimal
  | full
deriving DecidableEq, Repr

/-- Classification of one resolved address, keeping exactly the three
predicates `enforce_http_request` consults on an `ipaddress.ip_address`. -/
structure IpInfo where
  is_private : Bool
  is_loopback : Bool
  is_link_local : Bool
deriving DecidableEq, Repr

/-- An address is blocked when any of the three predicates holds
(network.py line 151). -/
def IpInfo.nonPublic (ip : IpInfo) : Bool :=
  ip.is_private || ip.is_loopback || ip.is_link_local

/-- Python str.lower(), as a structurally recursive map over the
character list (kernel-reducible, unlike String.toLower). -/
def lowerStr (s : String) : String :=
  ⟨s.data.map Char.toLower⟩

/-- Python str.upper(), as a structurally recursive map over the
character list. -/
def upperStr (s : String) : String :=
  ⟨s.data.map Char.toUpper⟩

/-- Python str.endswith(suffix), kernel-reducible. -/
def strEndsWith (s suffix : String) : Bool :=
  suffix.data.isSuffixOf s.data

/-- Python str.rstrip("."): drop every trailing dot. -/
def dropTrailingDots (s : String) : String :=
  ⟨(s.data.reverse.dropWhile (· = '.')).reverse⟩

/-- A URL, reduced to the only component the policy guard reads:
`urlparse(url).hostname`, which is `None` for URLs without a host. -/
structure Url where
  hostname : Option String
deriving DecidableEq, Repr

/-- The hostname extraction `(urlparse(url).hostname or "").lower()`
performed at network.py lines 98 and 105. -/
def Url.hostOf (u : Url) : String :=
  lowerStr (u.hostname.getD "")

/-- Mutable state and configuration of the policy guard
(network.py, dataclass NetworkPolicy). The per-host defaultdict is a total
function defaulting to 0, which is observationally the Python defaultdict. -/
structure NetworkPolicy where
  domain : String
  mode : Mode
  dns_policy : DnsPolicy
  max_target_http_requests_total : Nat
  max_target_http_per_host : Nat
  max_target_http_per_minute : Nat
  max_redirects : Nat
  max_bytes_per_response : Nat
  max_target_dns_queries : Nat
  target_http_total : Nat := 0
  target_http_per_host : String → Nat := fun _ => 0
  target_dns_total : Nat := 0
  minute_window_start : Nat := 0
  minute_count : Nat := 0

/-- Property allow_target_http (network.py lines 93-95). -/
def NetworkPolicy.allow_target_http (p : NetworkPolicy) : Bool :=
  p.mode = Mode.low_noise

/-- Method classify_http (network.py lines 97-101). -/
def NetworkPolicy.classify_http (p : NetworkPolicy) (url : Url) : String :=
  let host := url.hostOf
  if host = p.domain || strEndsWith host ("." ++ p.domain) then "target_http"
  else "third_party_http"

/-- Method _assert_host_in_scope (network.py lines 138-140), as the
proposition that no error is raised. -/
def NetworkPolicy.host_in_scope (p : NetworkPolicy) (host : String) : Bool :=
  host = p.domain || strEndsWith host ("." ++ p.domain)

/-- Method enforce_http_request (network.py lines 103-136). Returns the
updated guard state together with either the category (approval) or the
message of the raised NetworkPolicyError (rejection). The window reset at
lines 124-126 mutates state even when the request is subsequently
rejected, so the updated state is returned on both branches. -/
def NetworkPolicy.enforce_http_request (p : NetworkPolicy)
    (resolve : String → Option (List IpInfo)) (now : Nat)
    (method : String) (url : Url) : NetworkPolicy × Except String String :=
  let host := url.hostOf
  let category := p.classify_http url
  if category ≠ "target_http" then
    if p.allow_target_http && (upperStr method = "HEAD") then
      (p, .error "off-domain HEAD requests are blocked in low-noise mode")
    else
      (p, .ok category)
  else if !p.allow_target_http then
    (p, .error "target HTTP is disabled in passive mode")
  else if p.max_redirects ≠ 0 then
    (p, .error "redirects must remain disabled for target HTTP")
  else if !(upperStr method = "HEAD" || upperStr method = "GET") then
    (p, .error "only HEAD/GET are allowed for target HTTP")
  else if p.target_http_total ≥ p.max_target_http_requests_total then
    (p, .error "target HTTP total budget exceeded")
  else if p.target_http_per_host host ≥ p.max_target_http_per_host then
    (p, .error ("target HTTP per-host budget exceeded for " ++ host))
  else
    let p1 := if now - p.minute_window_start ≥ 60 then
        { p with minute_window_start := now, minute_count := 0 }
      else p
    if p1.minute_count ≥ p1.max_target_http_per_minute then
      (p1, .error "target HTTP per-minute budget exceeded")
    else if !p1.host_in_scope host then
      (p1, .error "host outside target domain scope")
    else
      match resolve host with
      | Option.none =>
          (p1, .error ("failed to resolve host " ++ host))
      | Option.some infos =>
          if infos.any IpInfo.nonPublic then
            (p1, .error "blocked target HTTP to non-public IP")
          else
            ({ p1 with
                target_http_total := p1.target_http_total + 1,
                target_http_per_host := fun h =>
                  if h = host then p1.target_http_per_host h + 1
                  else p1.target_http_per_host h,
                minute_count := p1.minute_count + 1 },
             .ok category)

/-- Normalization query_name.lower().rstrip(".") at network.py line 155. -/
def dnsNormalize (query_name : String) : String :=
  dropTrailingDots (lowerStr query_name)

/-- Method enforce_dns_query (network.py lines 154-171). -/
def NetworkPolicy.enforce_dns_query (p : NetworkPolicy)
    (query_name record_type : String) : NetworkPolicy × Except String Unit :=
  let q := dnsNormalize query_name
  let rt := upperStr record_type
  if p.dns_policy = DnsPolicy.none then
    (p, .error "DNS policy is none; DNS queries are disabled")
  else if p.target_dns_total ≥ p.max_target_dns_queries then
    (p, .error "target DNS query budget exceeded")
  else if p.dns_policy = DnsPolicy.minimal &&
      !((q = p.domain && rt = "TXT") ||
        (q = "_dmarc." ++ p.domain && rt = "TXT") ||
        (q = p.domain && rt = "MX")) then
    (p, .error ("DNS query blocked by minimal policy: " ++ q ++ " " ++ rt))
  else
    ({ p with target_dns_total := p.target_dns_total + 1 }, .ok ())

/-- Value stored in a ledger entry's status field, which Python types as
int | str | None (network.py line 26). -/
inductive StatusVal where
  | absent
  | code (n : Nat)
  | text (s : String)
deriving DecidableEq, Repr

/-- One NetworkLedgerEntry (network.py lines 19-33). The generation
timestamp and measured duration are abstracted away (the claims never
read them); every other field written by the clients is kept. -/
structure NetworkLedgerEntry where
  type : String
  destination_host : String
  url : Option String := Option.none
  method : Option String := Option.none
  status : StatusVal := StatusVal.absent
  error : Option String := Option.none
  bytes_out : Nat := 0
  bytes_in : Nat := 0
  duration_ms : Nat := 0
  query_name : Option String := Option.none
  record_type : Option String := Option.none
  success : Option Bool := Option.none
deriving DecidableEq, Repr

/-- The NetworkLedger (network.py lines 36-59) is its list of entries;
NetworkLedger.add appends one entry at the end. -/
abbrev NetworkLedger := List NetworkLedgerEntry

/-- Per-category count aggregation of NetworkLedger.totals
(network.py lines 46-59). -/
def ledgerCounts (ledger : NetworkLedger) (category : String) : Nat :=
  (ledger.filter (fun e => e.type = category)).length

/-- The total_entries field of NetworkLedger.totals (network.py line 58). -/
def ledgerTotalEntries (ledger : NetworkLedger) : Nat :=
  ledger.length

/-- Outcome of one transport attempt of the HTTP client: either a streamed
response (status code and byte sizes of the chunks yielded by
resp.aiter_bytes) or a raised transport-level exception. -/
inductive AttemptOutcome where
  | success (status : Nat) (chunks : List Nat)
  | failure (err : String)

/-- Errors HttpClient.request can raise: a NetworkPolicyError, the last
transport exception after exhausting retries, or the final
RuntimeError (http.py line 111, unreachable when at least one attempt
runs). -/
inductive HttpFailure where
  | policyViolation (msg : String)
  | transportError (msg : String)
  | exhausted
deriving DecidableEq, Repr

/-- The response HttpClient.request rebuilds from the streamed content
(http.py lines 73-78), reduced to the fields the claims read. -/
structure HttpResponse where
  status_code : Nat
  bytes_in : Nat
deriving DecidableEq, Repr

/-- The streaming loop of http.py lines 68-72: accumulate chunk sizes and
raise the byte-cap NetworkPolicyError as soon as the accumulated size
exceeds the cap; the cap is checked only when a policy is present
(cap = Option.none models policy = None). Returns the final byte count. -/
def streamBody (cap : Option Nat) : List Nat → Nat → Except String Nat
  | [], acc => .ok acc
  | c :: rest, acc =>
      let acc := acc + c
      match cap with
      | Option.some m =>
          if acc > m then .error "response byte cap exceeded"
          else streamBody cap rest acc
      | Option.none => streamBody cap rest acc

/-- The bytes_out computation of http.py lines 63-65, with the transmitted
header dict and json body modelled by their serialized strings. -/
def bytesOutOf (headers json : Option String) : Nat :=
  (match headers with
   | Option.some h => h.utf8ByteSize
   | Option.none => 0) +
  (match json with
   | Option.some j => j.utf8ByteSize
   | Option.none => 0)

/-- The retry loop of HttpClient.request (http.py lines 57-111), for
`fuel` remaining attempts (the loop runs retries + 1 times). A streamed
success ledgers one entry and returns; a byte-cap NetworkPolicyError is
re-raised without a ledger entry (lines 91-92); any other exception
ledgers one failure entry per attempt and retries. -/
def requestAttempts (cap : Option Nat) (category host urlS method : String)
    (bytes_out : Nat) (transport : Nat → AttemptOutcome)
    (attempt : Nat) (lastExc : Option String) (ledger : NetworkLedger) :
    (fuel : Nat) → NetworkLedger × Except HttpFailure HttpResponse
  | 0 =>
      (ledger,
       match lastExc with
       | Option.some e => .error (.transportError e)
       | Option.none => .error .exhausted)
  | fuel + 1 =>
      match transport attempt with
      | .success status chunks =>
          match streamBody cap chunks 0 with
          | .error msg => (ledger, .error (.policyViolation msg))
          | .ok total =>
              (ledger ++ [{ type := category, destination_host := host,
                            url := Option.some urlS,
                            method := Option.some method,
                            status := StatusVal.code status,
                            bytes_out := bytes_out, bytes_in := total }],
               .ok { status_code := status, bytes_in := total })
      | .failure err =>
          requestAttempts cap category host urlS method bytes_out transport
            (attempt + 1) (Option.some err)
            (ledger ++ [{ type := category, destination_host := host,
                          url := Option.some urlS,
                          method := Option.some method,
                          status := StatusVal.absent,
                          error := Option.some err,
                          bytes_out := bytes_out, bytes_in := 0 }])
            fuel

/-- Method HttpClient.request (http.py lines 45-111). The policy and the
ledger are the client's optional collaborators; `ledger = Option.none` is
folded into returning the unchanged empty ledger for a client without one,
so the ledger argument is the entries list (always present here, as the
claims are about ledgered clients). `urlS` is the URL's string form,
`url` its parsed hostname view. A policy rejection at admission
propagates before any attempt and before any ledger write (line 55). -/
def HttpClient.request (policy : Option NetworkPolicy)
    (ledger : NetworkLedger) (resolve : String → Option (List IpInfo))
    (now : Nat) (transport : Nat → AttemptOutcome) (retries : Nat)
    (method : String) (urlS : String) (url : Url)
    (headers json : Option String) :
    Option NetworkPolicy × NetworkLedger × Except HttpFailure HttpResponse :=
  let m := upperStr method
  let bytes_out := bytesOutOf headers json
  match policy with
  | Option.none =>
      (Option.none,
       requestAttempts Option.none "third_party_http" url.hostOf urlS m
         bytes_out transport 0 Option.none ledger (retries + 1))
  | Option.some p =>
      match p.enforce_http_request resolve now m url with
      | (p1, .error msg) =>
          (Option.some p1, ledger, .error (.policyViolation msg))
      | (p1, .ok category) =>
          (Option.some p1,
           requestAttempts (Option.some p1.max_bytes_per_response) category
             url.hostOf urlS m bytes_out transport 0 Option.none ledger
             (retries + 1))

/-- The ledger entry DnsClient.resolve_records appends in its finally
block (dns.py lines 40-51). -/
def dnsLedgerEntry (domain record_type : String) (success : Bool)
    (error : Option String) : NetworkLedgerEntry :=
  { type := "target_dns", destination_host := domain,
    query_name := Option.some domain,
    record_type := Option.some (upperStr record_type),
    method := Option.some "DNS",
    status := if success then StatusVal.text "ok" else StatusVal.text "error",
    error := error, success := Option.some success }

/-- Method DnsClient.resolve_records (dns.py lines 19-51). The resolver
oracle is the outcome of dns.resolver.resolve: the answer strings, or the
message of a raised exception. Every control path funnels through the
finally block, appending exactly one ledger entry, and none of them
propagates an exception: a NetworkPolicyError or resolver failure turns
into an empty list. -/
def DnsClient.resolve_records (policy : Option NetworkPolicy)
    (ledger : NetworkLedger) (resolver : Except String (List String))
    (domain record_type : String) :
    Option NetworkPolicy × NetworkLedger × List String :=
  match policy with
  | Option.some p =>
      match p.enforce_dns_query domain record_type with
      | (p1, .error e) =>
          (Option.some p1,
           ledger ++ [dnsLedgerEntry domain record_type false (Option.some e)],
           [])
      | (p1, .ok ()) =>
          match resolver with
          | .ok values =>
              (Option.some p1,
               ledger ++ [dnsLedgerEntry domain record_type true Option.none],
               values)
          | .error e =>
              (Option.some p1,
               ledger ++ [dnsLedgerEntry domain record_type false
                            (Option.some e)],
               [])
  | Option.none =>
      match resolver with
      | .ok values =>
          (Option.none,
           ledger ++ [dnsLedgerEntry domain record_type true Option.none],
           values)
      | .error e =>
          (Option.none,
           ledger ++ [dnsLedgerEntry domain record_type false (Option.some e)],
           [])

/-! Concrete fixtures: the RunConfig defaults of models/config.py for the
assessment domain example.com, and simple resolver / transport oracles. -/

/-- Guard built from the default RunConfig for example.com, passive mode. -/
def examplePassive : NetworkPolicy :=
  { domain := "example.com", mode := Mode.passive,
    dns_policy := DnsPolicy.minimal,
    max_target_http_requests_total := 12, max_target_http_per_host := 3,
    max_target_http_per_minute := 12, max_redirects := 0,
    max_bytes_per_response := 262144, max_target_dns_queries := 25 }

/-- Same configuration in low-noise mode. -/
def exampleLowNoise : NetworkPolicy :=
  { examplePassive with mode := Mode.low_noise }

/-- Resolver oracle answering one public address for every host. -/
def publicResolve : String → Option (List IpInfo) :=
  fun _ => Option.some [{ is_private := false, is_loopback := false,
                          is_link_local := false }]

/-- URL of the assessment apex. -/
def targetUrl : Url := ⟨Option.some "example.com"⟩

/-- URL of an off-domain host. -/
def offUrl : Url := ⟨Option.some "evil.example"⟩

/-- Transport oracle whose every attempt streams a 4-byte body in one
chunk with status 200. -/
def fourByteTransport : Nat → AttemptOutcome :=
  fun _ => .success 200 [4]

/-! Helper lemmas shared by the claim theorems. -/

/-- Classification as target_http coincides with the defensive in-scope
re-check of _assert_host_in_scope. -/
theorem classify_target_iff (p : NetworkPolicy) (url : Url) :
    p.classify_http url = "target_http" ↔
      p.host_in_scope url.hostOf = true := by
  unfold NetworkPolicy.classify_http NetworkPolicy.host_in_scope
  by_cases h : (decide (url.hostOf = p.domain) ||
      strEndsWith url.hostOf ("." ++ p.domain)) = true
  · simp [h]
  · simp [h]

/-- C1: in passive mode every request classified target_http is rejected
with the no-direct-target-contact violation, for any method, and the
guard state (hence every budget counter) is unchanged. -/
theorem passive_rejects_target_http (p : NetworkPolicy)
    (resolve : String → Option (List IpInfo)) (now : Nat)
    (method : String) (url : Url)
    (hmode : p.mode = Mode.passive)
    (htarget : p.classify_http url = "target_http") :
    p.enforce_http_request resolve now method url =
      (p, .error "target HTTP is disabled in passive mode") := by
  have hallow : p.allow_target_http = false := by
    simp [NetworkPolicy.allow_target_http, hmode]
  simp [NetworkPolicy.enforce_http_request, htarget, hallow]

/-- Witness for C1 at the default passive guard, a GET to the apex. -/
theorem passive_rejects_target_http_witness :
    examplePassive.enforce_http_request publicResolve 0 "GET" targetUrl =
      (examplePassive, .error "target HTTP is disabled in passive mode") :=
  passive_rejects_target_http examplePassive publicResolve 0 "GET" targetUrl
    rfl (by decide)

/-- C9: a request to a host that is neither the assessment domain nor a
subdomain of it is approved as third_party_http with the guard state
untouched (so no target counter is debited), except that an off-domain
HEAD in low-noise mode is rejected; the same HEAD is approved in passive
mode because the exception tests allow_target_http. -/
theorem third_party_http_unconditional (p : NetworkPolicy)
    (resolve : String → Option (List IpInfo)) (now : Nat)
    (method : String) (url : Url)
    (hoff : p.host_in_scope url.hostOf = false) :
    (¬(p.mode = Mode.low_noise ∧ upperStr method = "HEAD") →
      p.enforce_http_request resolve now method url =
        (p, .ok "third_party_http"))
    ∧ ((p.mode = Mode.low_noise ∧ upperStr method = "HEAD") →
      p.enforce_http_request resolve now method url =
        (p, .error "off-domain HEAD requests are blocked in low-noise mode")) := by
  have hclass : p.classify_http url = "third_party_http" := by
    unfold NetworkPolicy.host_in_scope at hoff
    unfold NetworkPolicy.classify_http
    simp only [hoff]
    simp
  constructor
  · intro hn
    have hb : (p.allow_target_http && decide (upperStr method = "HEAD")) = false := by
      unfold NetworkPolicy.allow_target_http
      rcases Decidable.em (p.mode = Mode.low_noise) with hm | hm
      · rcases Decidable.em (upperStr method = "HEAD") with hh | hh
        · exact absurd ⟨hm, hh⟩ hn
        · simp [hh]
      · simp [hm]
    simp [NetworkPolicy.enforce_http_request, hclass, hb]
  · rintro ⟨hm, hh⟩
    have hb : (p.allow_target_http && decide (upperStr method = "HEAD")) = true := by
      simp [NetworkPolicy.allow_target_http, hm, hh]
    simp [NetworkPolicy.enforce_http_request, hclass, hb]

/-- Witness for C9: under the default low-noise guard, a GET to
evil.example is approved as third_party_http with state unchanged, while a
HEAD to evil.example is rejected; the same HEAD is approved in passive
mode. -/
theorem third_party_http_unconditional_witness :
    exampleLowNoise.enforce_http_request publicResolve 0 "GET" offUrl =
      (exampleLowNoise, .ok "third_party_http")
    ∧ exampleLowNoise.enforce_http_request publicResolve 0 "HEAD" offUrl =
      (exampleLowNoise,
       .error "off-domain HEAD requests are blocked in low-noise mode")
    ∧ examplePassive.enforce_http_request publicResolve 0 "HEAD" offUrl =
      (examplePassive, .ok "third_party_http") :=
  ⟨(third_party_http_unconditional exampleLowNoise publicResolve 0 "GET" offUrl
      (by decide)).1 (by decide),
   (third_party_http_unconditional exampleLowNoise publicResolve 0 "HEAD" offUrl
      (by decide)).2 ⟨rfl, by decide⟩,
   (third_party_http_unconditional examplePassive publicResolve 0 "HEAD" offUrl
      (by decide)).1 (by decide)⟩

/-- C3: for a target request that has passed the mode, redirect, method,
budget and window checks, a resolution failure, or any resolved address
that is private, loopback or link-local, causes a policy violation;
resolution failure is never treated as approval (fail-closed), and the
rejection leaves every budget counter untouched. -/
theorem unsafe_resolution_fail_closed (p : NetworkPolicy)
    (resolve : String → Option (List IpInfo)) (now : Nat)
    (method : String) (url : Url)
    (htarget : p.classify_http url = "target_http")
    (hmode : p.allow_target_http = true)
    (hredir : p.max_redirects = 0)
    (hmeth : upperStr method = "HEAD" ∨ upperStr method = "GET")
    (htot : p.target_http_total < p.max_target_http_requests_total)
    (hhost : p.target_http_per_host url.hostOf < p.max_target_http_per_host)
    (hmin : (if now - p.minute_window_start ≥ 60 then 0 else p.minute_count) <
        p.max_target_http_per_minute)
    (hbad : resolve url.hostOf = Option.none ∨
        ∃ infos, resolve url.hostOf = Option.some infos ∧
          infos.any IpInfo.nonPublic = true) :
    (∃ msg, (p.enforce_http_request resolve now method url).2 = .error msg)
    ∧ (p.enforce_http_request resolve now method url).1.target_http_total =
        p.target_http_total
    ∧ (p.enforce_http_request resolve now method url).1.target_http_per_host =
        p.target_http_per_host
    ∧ (p.enforce_http_request resolve now method url).1.target_dns_total =
        p.target_dns_total := by
  have hscope : p.host_in_scope url.hostOf = true :=
    (classify_target_iff p url).mp htarget
  have h4 : (decide (upperStr method = "HEAD") ||
      decide (upperStr method = "GET")) = true := by
    rcases hmeth with h | h <;> simp [h]
  have h5 : ¬ p.target_http_total ≥ p.max_target_http_requests_total :=
    Nat.not_le.mpr htot
  have h6 : ¬ p.target_http_per_host url.hostOf ≥ p.max_target_http_per_host :=
    Nat.not_le.mpr hhost
  unfold NetworkPolicy.host_in_scope at hscope
  by_cases hw : now - p.minute_window_start ≥ 60
  · rw [if_pos hw] at hmin
    have h7 : ¬ (0 : Nat) ≥ p.max_target_http_per_minute := Nat.not_le.mpr hmin
    rcases hbad with hres | ⟨infos, hres, hany⟩
    · simp [NetworkPolicy.enforce_http_request, NetworkPolicy.host_in_scope,
        htarget, hmode, hredir, h4, h5, h6, hw, h7, hscope, hres]
    · simp [NetworkPolicy.enforce_http_request, NetworkPolicy.host_in_scope,
        htarget, hmode, hredir, h4, h5, h6, hw, h7, hscope, hres, hany]
  · rw [if_neg hw] at hmin
    have h7 : ¬ p.minute_count ≥ p.max_target_http_per_minute :=
      Nat.not_le.mpr hmin
    rcases hbad with hres | ⟨infos, hres, hany⟩
    · simp [NetworkPolicy.enforce_http_request, NetworkPolicy.host_in_scope,
        htarget, hmode, hredir, h4, h5, h6, hw, h7, hscope, hres]
    · simp [NetworkPolicy.enforce_http_request, NetworkPolicy.host_in_scope,
        htarget, hmode, hredir, h4, h5, h6, hw, h7, hscope, hres, hany]

/-- Witness for C3 at the default low-noise guard: a GET to the apex with
a loopback resolution, and a GET to the apex whose resolution fails. -/
theorem unsafe_resolution_fail_closed_witness :
    (∃ msg, (exampleLowNoise.enforce_http_request
        (fun _ => Option.some [{ is_private := false, is_loopback := true,
                                 is_link_local := false }])
        0 "GET" targetUrl).2 = .error msg)
    ∧ (∃ msg, (exampleLowNoise.enforce_http_request
        (fun _ => Option.none) 0 "GET" targetUrl).2 = .error msg) :=
  ⟨(unsafe_resolution_fail_closed exampleLowNoise
      (fun _ => Option.some [{ is_private := false, is_loopback := true,
                               is_link_local := false }])
      0 "GET" targetUrl (by decide) (by decide) rfl (Or.inr (by decide))
      (by decide) (by decide) (by decide)
      (Or.inr ⟨_, rfl, by decide⟩)).1,
   (unsafe_resolution_fail_closed exampleLowNoise (fun _ => Option.none)
      0 "GET" targetUrl (by decide) (by decide) rfl (Or.inr (by decide))
      (by decide) (by decide) (by decide) (Or.inl rfl)).1⟩

/-- C5: the per-minute budget uses a fixed one-minute window. While fewer
than 60 seconds have elapsed since the window started, an otherwise
admissible target request is rejected (with the guard state unchanged)
once the window counter has reached the per-minute ceiling; once at least
60 seconds have elapsed, the window restarts at the current time with its
counter reset to zero, and an otherwise admissible request is approved,
leaving the restarted window's counter at one. -/
theorem minute_window_fixed (p : NetworkPolicy)
    (resolve : String → Option (List IpInfo)) (now : Nat)
    (method : String) (url : Url)
    (htarget : p.classify_http url = "target_http")
    (hmode : p.allow_target_http = true)
    (hredir : p.max_redirects = 0)
    (hmeth : upperStr method = "HEAD" ∨ upperStr method = "GET")
    (htot : p.target_http_total < p.max_target_http_requests_total)
    (hhost : p.target_http_per_host url.hostOf < p.max_target_http_per_host) :
    ((now - p.minute_window_start < 60 →
        p.minute_count ≥ p.max_target_http_per_minute →
        p.enforce_http_request resolve now method url =
          (p, .error "target HTTP per-minute budget exceeded")))
    ∧ (now - p.minute_window_start ≥ 60 →
        0 < p.max_target_http_per_minute →
        ∀ infos, resolve url.hostOf = Option.some infos →
          infos.any IpInfo.nonPublic = false →
          (p.enforce_http_request resolve now method url).2 = .ok "target_http"
          ∧ (p.enforce_http_request resolve now method url).1.minute_window_start
              = now
          ∧ (p.enforce_http_request resolve now method url).1.minute_count = 1) := by
  have hscope : p.host_in_scope url.hostOf = true :=
    (classify_target_iff p url).mp htarget
  unfold NetworkPolicy.host_in_scope at hscope
  have h4 : (decide (upperStr method = "HEAD") ||
      decide (upperStr method = "GET")) = true := by
    rcases hmeth with h | h <;> simp [h]
  have h5 : ¬ p.target_http_total ≥ p.max_target_http_requests_total :=
    Nat.not_le.mpr htot
  have h6 : ¬ p.target_http_per_host url.hostOf ≥ p.max_target_http_per_host :=
    Nat.not_le.mpr hhost
  constructor
  · intro hlt hfull
    have hw : ¬ now - p.minute_window_start ≥ 60 := Nat.not_le.mpr hlt
    simp [NetworkPolicy.enforce_http_request, htarget, hmode, hredir, h4,
      h5, h6, hw, hfull]
  · intro hw hpos infos hres hsafe
    have h7 : ¬ (0 : Nat) ≥ p.max_target_http_per_minute := Nat.not_le.mpr hpos
    simp [NetworkPolicy.enforce_http_request, NetworkPolicy.host_in_scope,
      htarget, hmode, hredir, h4, h5, h6, hw, h7, hscope, hres, hsafe]

/-- Witness for C5 with the per-minute ceiling already consumed
(counter = ceiling = 12): at 30 seconds into the window the request is
rejected; at 60 seconds the window restarts and the request is approved
with the fresh counter at one. -/
theorem minute_window_fixed_witness :
    ({ exampleLowNoise with minute_count := 12 }.enforce_http_request
        publicResolve 30 "GET" targetUrl =
      ({ exampleLowNoise with minute_count := 12 },
       .error "target HTTP per-minute budget exceeded"))
    ∧ ({ exampleLowNoise with minute_count := 12 }.enforce_http_request
        publicResolve 60 "GET" targetUrl).2 = .ok "target_http"
    ∧ ({ exampleLowNoise with minute_count := 12 }.enforce_http_request
        publicResolve 60 "GET" targetUrl).1.minute_window_start = 60
    ∧ ({ exampleLowNoise with minute_count := 12 }.enforce_http_request
        publicResolve 60 "GET" targetUrl).1.minute_count = 1 := by
  refine ⟨?_, ?_, ?_, ?_⟩
  · exact (minute_window_fixed { exampleLowNoise with minute_count := 12 }
      publicResolve 30 "GET" targetUrl (by decide) (by decide) rfl
      (Or.inr (by decide)) (by decide) (by decide)).1 (by decide) (by decide)
  all_goals
    have h := (minute_window_fixed { exampleLowNoise with minute_count := 12 }
      publicResolve 60 "GET" targetUrl (by decide) (by decide) rfl
      (Or.inr (by decide)) (by decide) (by decide)).2 (by decide) (by decide)
      _ rfl (by decide)
  · exact h.1
  · exact h.2.1
  · exact h.2.2

/-- C7: under DNS policy minimal with remaining budget, enforce_dns_query
admits exactly the normalized pairs (domain, MX), (domain, TXT) and
(_dmarc.domain, TXT), incrementing the DNS counter on approval; any other
pair is rejected without touching the counter, and the rejection of a
disallowed pair does not depend on the remaining budget. -/
theorem dns_minimal_allowlist (p : NetworkPolicy) (name rt : String)
    (hpol : p.dns_policy = DnsPolicy.minimal) :
    (p.target_dns_total < p.max_target_dns_queries →
      ((p.enforce_dns_query name rt).2 = .ok () ↔
        ((dnsNormalize name = p.domain ∧ upperStr rt = "TXT")
         ∨ (dnsNormalize name = "_dmarc." ++ p.domain ∧ upperStr rt = "TXT")
         ∨ (dnsNormalize name = p.domain ∧ upperStr rt = "MX"))))
    ∧ ((p.enforce_dns_query name rt).2 = .ok () →
        (p.enforce_dns_query name rt).1.target_dns_total =
          p.target_dns_total + 1)
    ∧ (∀ e, (p.enforce_dns_query name rt).2 = .error e →
        (p.enforce_dns_query name rt).1.target_dns_total = p.target_dns_total)
    ∧ (¬((dnsNormalize name = p.domain ∧ upperStr rt = "TXT")
         ∨ (dnsNormalize name = "_dmarc." ++ p.domain ∧ upperStr rt = "TXT")
         ∨ (dnsNormalize name = p.domain ∧ upperStr rt = "MX")) →
        ∃ e, (p.enforce_dns_query name rt).2 = .error e) := by
  have hnone : ¬ p.dns_policy = DnsPolicy.none := by rw [hpol]; intro h; cases h
  by_cases hb : p.target_dns_total ≥ p.max_target_dns_queries
  · refine ⟨fun hlt => absurd hb (Nat.not_le.mpr hlt), ?_, ?_, ?_⟩
    · intro hok
      exfalso
      simp [NetworkPolicy.enforce_dns_query, hnone, hb] at hok
    · intro e _
      simp [NetworkPolicy.enforce_dns_query, hnone, hb]
    · intro _
      exact ⟨"target DNS query budget exceeded",
        by simp [NetworkPolicy.enforce_dns_query, hnone, hb]⟩
  · by_cases hal : ((dnsNormalize name = p.domain ∧ upperStr rt = "TXT")
        ∨ (dnsNormalize name = "_dmarc." ++ p.domain ∧ upperStr rt = "TXT")
        ∨ (dnsNormalize name = p.domain ∧ upperStr rt = "MX"))
    · have hcond : ((decide (dnsNormalize name = p.domain) &&
            decide (upperStr rt = "TXT"))
          || (decide (dnsNormalize name = "_dmarc." ++ p.domain) &&
            decide (upperStr rt = "TXT"))
          || (decide (dnsNormalize name = p.domain) &&
            decide (upperStr rt = "MX"))) = true := by
        rcases hal with ⟨h1, h2⟩ | ⟨h1, h2⟩ | ⟨h1, h2⟩ <;> simp [h1, h2]
      refine ⟨fun _ => ⟨fun _ => hal, fun _ => ?_⟩, ?_, ?_, fun hno => absurd hal hno⟩
      · simp [NetworkPolicy.enforce_dns_query, hnone, hb, hpol, hcond]
      · intro _
        simp [NetworkPolicy.enforce_dns_query, hnone, hb, hpol, hcond]
      · intro e he
        exfalso
        simp [NetworkPolicy.enforce_dns_query, hnone, hb, hpol, hcond] at he
    · have hcond : ((decide (dnsNormalize name = p.domain) &&
            decide (upperStr rt = "TXT"))
          || (decide (dnsNormalize name = "_dmarc." ++ p.domain) &&
            decide (upperStr rt = "TXT"))
          || (decide (dnsNormalize name = p.domain) &&
            decide (upperStr rt = "MX"))) = false := by
        rw [not_or, not_or] at hal
        obtain ⟨h1, h2, h3⟩ := hal
        rcases Decidable.em (dnsNormalize name = p.domain) with hq | hq <;>
          rcases Decidable.em (upperStr rt = "TXT") with ht | ht <;>
          rcases Decidable.em (dnsNormalize name = "_dmarc." ++ p.domain)
            with hd | hd <;>
          rcases Decidable.em (upperStr rt = "MX") with hm | hm <;>
          simp_all
      refine ⟨fun _ => ⟨fun hok => ?_, fun h => absurd h hal⟩, ?_, ?_, fun _ => ?_⟩
      · exfalso
        simp [NetworkPolicy.enforce_dns_query, hnone, hb, hpol, hcond] at hok
      · intro hok
        exfalso
        simp [NetworkPolicy.enforce_dns_query, hnone, hb, hpol, hcond] at hok
      · intro e _
        simp [NetworkPolicy.enforce_dns_query, hnone, hb, hpol, hcond]
      · exact ⟨"DNS query blocked by minimal policy: " ++ dnsNormalize name ++
          " " ++ upperStr rt,
          by simp [NetworkPolicy.enforce_dns_query, hnone, hb, hpol, hcond]⟩

/-- Witness for C7 on the default guard (minimal policy, budget 25,
counter 0): an MX query for the apex is approved and moves the counter to
one, while an A query for the apex is rejected and leaves it at zero. -/
theorem dns_minimal_allowlist_witness :
    ((examplePassive.enforce_dns_query "example.com" "MX").2 = .ok ()
      ∧ (examplePassive.enforce_dns_query "example.com" "MX").1.target_dns_total
          = 1)
    ∧ ((∃ e, (examplePassive.enforce_dns_query "example.com" "A").2 = .error e)
      ∧ (examplePassive.enforce_dns_query "example.com" "A").1.target_dns_total
          = 0) := by
  have hmx := dns_minimal_allowlist examplePassive "example.com" "MX" rfl
  have ha := dns_minimal_allowlist examplePassive "example.com" "A" rfl
  have hok : (examplePassive.enforce_dns_query "example.com" "MX").2 = .ok () :=
    (hmx.1 (by decide)).mpr (Or.inr (Or.inr ⟨by decide, by decide⟩))
  obtain ⟨e, he⟩ := ha.2.2.2 (by decide)
  exact ⟨⟨hok, hmx.2.1 hok⟩, ⟨⟨e, he⟩, ha.2.2.1 e he⟩⟩

/-- C8: the guarded DNS client never raises (resolve_records is a total
function into record lists): on a policy rejection it appends one ledger
entry carrying success = false and the rejection text and returns the
empty list; on a resolver failure it likewise returns the empty list with
a failed entry; and under DNS policy none every query yields the empty
list while the DNS counter stays where it was. -/
theorem dns_client_never_raises (p : NetworkPolicy) (ledger : NetworkLedger)
    (resolver : Except String (List String)) (name rt : String) :
    (∀ e, (p.enforce_dns_query name rt).2 = .error e →
      DnsClient.resolve_records (Option.some p) ledger resolver name rt =
        (Option.some (p.enforce_dns_query name rt).1,
         ledger ++ [dnsLedgerEntry name rt false (Option.some e)], []))
    ∧ (∀ e, resolver = .error e →
        (DnsClient.resolve_records (Option.some p) ledger resolver name rt).2.2
          = []
        ∧ ∃ e2, (DnsClient.resolve_records (Option.some p) ledger resolver
              name rt).2.1 =
            ledger ++ [dnsLedgerEntry name rt false (Option.some e2)])
    ∧ (p.dns_policy = DnsPolicy.none →
        DnsClient.resolve_records (Option.some p) ledger resolver name rt =
          (Option.some p,
           ledger ++ [dnsLedgerEntry name rt false
             (Option.some "DNS policy is none; DNS queries are disabled")],
           [])) := by
  refine ⟨?_, ?_, ?_⟩
  · intro e he
    rcases hq : p.enforce_dns_query name rt with ⟨p1, r⟩
    rw [hq] at he
    cases r with
    | error e0 =>
        cases he
        simp [DnsClient.resolve_records, hq]
    | ok u => cases he
  · intro e he
    rcases hq : p.enforce_dns_query name rt with ⟨p1, r⟩
    cases r with
    | error e0 =>
        refine ⟨?_, e0, ?_⟩ <;> simp [DnsClient.resolve_records, hq]
    | ok u =>
        cases u
        refine ⟨?_, e, ?_⟩ <;> simp [DnsClient.resolve_records, hq, he]
  · intro hnone
    have hq : p.enforce_dns_query name rt =
        (p, .error "DNS policy is none; DNS queries are disabled") := by
      simp [NetworkPolicy.enforce_dns_query, hnone]
    simp [DnsClient.resolve_records, hq]

/-- Witness for C8 on the default guard switched to DNS policy none: an
A query with a resolver that would answer still yields the empty list, an
unchanged counter, and one failed ledger entry. -/
theorem dns_client_never_raises_witness :
    DnsClient.resolve_records
        (Option.some { examplePassive with dns_policy := DnsPolicy.none })
        [] (.ok ["93.184.216.34"]) "example.com" "A" =
      (Option.some { examplePassive with dns_policy := DnsPolicy.none },
       [dnsLedgerEntry "example.com" "A" false
          (Option.some "DNS policy is none; DNS queries are disabled")],
       []) :=
  (dns_client_never_raises
      { examplePassive with dns_policy := DnsPolicy.none } []
      (.ok ["93.184.216.34"]) "example.com" "A").2.2 rfl

/-- Full case analysis of enforce_http_request for the counter facts:
the total and per-host counters never decrease, the DNS counter is never
touched, every rejection leaves the total and per-host counters exactly
where they were, and at the moment a target request is approved none of
the three HTTP counters exceeds its ceiling. -/
theorem http_counters_fact (p : NetworkPolicy)
    (resolve : String → Option (List IpInfo)) (now : Nat)
    (method : String) (url : Url) (q : NetworkPolicy)
    (r : Except String String)
    (heq : p.enforce_http_request resolve now method url = (q, r)) :
    (p.target_http_total ≤ q.target_http_total)
    ∧ (∀ h, p.target_http_per_host h ≤ q.target_http_per_host h)
    ∧ (q.target_dns_total = p.target_dns_total)
    ∧ (∀ e, r = .error e → q.target_http_total = p.target_http_total
        ∧ q.target_http_per_host = p.target_http_per_host)
    ∧ (r = .ok "target_http" →
        q.target_http_total ≤ p.max_target_http_requests_total
        ∧ q.target_http_per_host url.hostOf ≤ p.max_target_http_per_host
        ∧ q.minute_count ≤ p.max_target_http_per_minute) := by
  by_cases hs : p.classify_http url = "target_http"
  · have hscope : p.host_in_scope url.hostOf = true :=
      (classify_target_iff p url).mp hs
    unfold NetworkPolicy.host_in_scope at hscope
    cases hmode : p.allow_target_http with
    | false =>
        simp [NetworkPolicy.enforce_http_request, hs, hmode] at heq
        obtain ⟨hq, hr⟩ := heq
        subst hq; subst hr
        exact ⟨le_refl _, fun h => le_refl _, rfl, fun e he => ⟨rfl, rfl⟩,
          fun hok => nomatch hok⟩
    | true =>
        by_cases hr0 : p.max_redirects = 0
        case neg =>
          simp [NetworkPolicy.enforce_http_request, hs, hmode, hr0] at heq
          obtain ⟨hq, hr⟩ := heq
          subst hq; subst hr
          exact ⟨le_refl _, fun h => le_refl _, rfl, fun e he => ⟨rfl, rfl⟩,
            fun hok => nomatch hok⟩
        case pos =>
        cases hmm : (decide (upperStr method = "HEAD") ||
            decide (upperStr method = "GET")) with
        | false =>
            simp [NetworkPolicy.enforce_http_request, hs, hmode, hr0, hmm]
              at heq
            obtain ⟨hq, hr⟩ := heq
            subst hq; subst hr
            exact ⟨le_refl _, fun h => le_refl _, rfl, fun e he => ⟨rfl, rfl⟩,
              fun hok => nomatch hok⟩
        | true =>
        by_cases ht : p.target_http_total ≥ p.max_target_http_requests_total
        case pos =>
          simp [NetworkPolicy.enforce_http_request, hs, hmode, hr0, hmm, ht]
            at heq
          obtain ⟨hq, hr⟩ := heq
          subst hq; subst hr
          exact ⟨le_refl _, fun h => le_refl _, rfl, fun e he => ⟨rfl, rfl⟩,
            fun hok => nomatch hok⟩
        case neg =>
        by_cases hh : p.target_http_per_host url.hostOf ≥
            p.max_target_http_per_host
        case pos =>
          simp [NetworkPolicy.enforce_http_request, hs, hmode, hr0, hmm, ht,
            hh] at heq
          obtain ⟨hq, hr⟩ := heq
          subst hq; subst hr
          exact ⟨le_refl _, fun h => le_refl _, rfl, fun e he => ⟨rfl, rfl⟩,
            fun hok => nomatch hok⟩
        case neg =>
        by_cases hw : now - p.minute_window_start ≥ 60
        case pos =>
          by_cases hmc : p.max_target_http_per_minute = 0
          case pos =>
            simp [NetworkPolicy.enforce_http_request, hs, hmode, hr0, hmm,
              ht, hh, hw, hmc] at heq
            obtain ⟨hq, hr⟩ := heq
            subst hq; subst hr
            exact ⟨le_refl _, fun h => le_refl _, rfl, fun e he => ⟨rfl, rfl⟩,
              fun hok => nomatch hok⟩
          case neg =>
            cases hres : resolve url.hostOf with
            | none =>
                simp [NetworkPolicy.enforce_http_request,
                  NetworkPolicy.host_in_scope, hs, hmode, hr0, hmm, ht, hh,
                  hw, hmc, hscope, hres] at heq
                obtain ⟨hq, hr⟩ := heq
                subst hq; subst hr
                exact ⟨le_refl _, fun h => le_refl _, rfl,
                  fun e he => ⟨rfl, rfl⟩, fun hok => nomatch hok⟩
            | some infos =>
                cases hany : infos.any IpInfo.nonPublic with
                | true =>
                    simp [NetworkPolicy.enforce_http_request,
                      NetworkPolicy.host_in_scope, hs, hmode, hr0, hmm, ht,
                      hh, hw, hmc, hscope, hres, hany] at heq
                    obtain ⟨hq, hr⟩ := heq
                    subst hq; subst hr
                    exact ⟨le_refl _, fun h => le_refl _, rfl,
                      fun e he => ⟨rfl, rfl⟩, fun hok => nomatch hok⟩
                | false =>
                    simp [NetworkPolicy.enforce_http_request,
                      NetworkPolicy.host_in_scope, hs, hmode, hr0, hmm, ht,
                      hh, hw, hmc, hscope, hres, hany] at heq
                    obtain ⟨hq, hr⟩ := heq
                    subst hq; subst hr
                    refine ⟨Nat.le_succ _, fun h => ?_, rfl,
                      fun e he => Except.noConfusion he, fun hok => ⟨?_, ?_, ?_⟩⟩
                    · by_cases hhh : h = url.hostOf <;> simp [hhh]
                    · simp
                      omega
                    · simp
                      omega
                    · simp
                      omega
        case neg =>
          by_cases hmc : p.minute_count ≥ p.max_target_http_per_minute
          case pos =>
            simp [NetworkPolicy.enforce_http_request, hs, hmode, hr0, hmm,
              ht, hh, hw, hmc] at heq
            obtain ⟨hq, hr⟩ := heq
            subst hq; subst hr
            exact ⟨le_refl _, fun h => le_refl _, rfl, fun e he => ⟨rfl, rfl⟩,
              fun hok => nomatch hok⟩
          case neg =>
            cases hres : resolve url.hostOf with
            | none =>
                simp [NetworkPolicy.enforce_http_request,
                  NetworkPolicy.host_in_scope, hs, hmode, hr0, hmm, ht, hh,
                  hw, hmc, hscope, hres] at heq
                obtain ⟨hq, hr⟩ := heq
                subst hq; subst hr
                exact ⟨le_refl _, fun h => le_refl _, rfl,
                  fun e he => ⟨rfl, rfl⟩, fun hok => nomatch hok⟩
            | some infos =>
                cases hany : infos.any IpInfo.nonPublic with
                | true =>
                    simp [NetworkPolicy.enforce_http_request,
                      NetworkPolicy.host_in_scope, hs, hmode, hr0, hmm, ht,
                      hh, hw, hmc, hscope, hres, hany] at heq
                    obtain ⟨hq, hr⟩ := heq
                    subst hq; subst hr
                    exact ⟨le_refl _, fun h => le_refl _, rfl,
                      fun e he => ⟨rfl, rfl⟩, fun hok => nomatch hok⟩
                | false =>
                    simp [NetworkPolicy.enforce_http_request,
                      NetworkPolicy.host_in_scope, hs, hmode, hr0, hmm, ht,
                      hh, hw, hmc, hscope, hres, hany] at heq
                    obtain ⟨hq, hr⟩ := heq
                    subst hq; subst hr
                    refine ⟨Nat.le_succ _, fun h => ?_, rfl,
                      fun e he => Except.noConfusion he, fun hok => ⟨?_, ?_, ?_⟩⟩
                    · by_cases hhh : h = url.hostOf <;> simp [hhh]
                    · simp
                      omega
                    · simp
                      omega
                    · simp
                      omega
  · cases hb : (p.allow_target_http && decide (upperStr method = "HEAD")) with
    | true =>
        simp [NetworkPolicy.enforce_http_request, hs, hb] at heq
        obtain ⟨hq, hr⟩ := heq
        subst hq; subst hr
        exact ⟨le_refl _, fun h => le_refl _, rfl, fun e he => ⟨rfl, rfl⟩,
          fun hok => nomatch hok⟩
    | false =>
        simp [NetworkPolicy.enforce_http_request, hs, hb] at heq
        obtain ⟨hq, hr⟩ := heq
        subst hq; subst hr
        exact ⟨le_refl _, fun h => le_refl _, rfl,
          fun e he => Except.noConfusion he,
          fun hok => absurd (Except.ok.inj hok) hs⟩

/-- Counter facts for enforce_dns_query: the DNS counter never decreases,
the HTTP counters and the minute window counter are never touched, a
rejection leaves the DNS counter unchanged, and at the moment a query is
approved the DNS counter does not exceed its ceiling. -/
theorem dns_counters_fact (p : NetworkPolicy) (qn rt : String)
    (q : NetworkPolicy) (r : Except String Unit)
    (heq : p.enforce_dns_query qn rt = (q, r)) :
    (p.target_dns_total ≤ q.target_dns_total)
    ∧ (q.target_http_total = p.target_http_total)
    ∧ (q.target_http_per_host = p.target_http_per_host)
    ∧ (q.minute_count = p.minute_count)
    ∧ (∀ e, r = .error e → q.target_dns_total = p.target_dns_total)
    ∧ (r = .ok () → q.target_dns_total ≤ p.max_target_dns_queries) := by
  simp only [NetworkPolicy.enforce_dns_query] at heq
  by_cases h1 : p.dns_policy = DnsPolicy.none
  · rw [if_pos h1] at heq
    injection heq with hq hr
    subst hq; subst hr
    exact ⟨le_refl _, rfl, rfl, rfl, fun e he => rfl,
      fun hok => Except.noConfusion hok⟩
  · rw [if_neg h1] at heq
    by_cases h2 : p.target_dns_total ≥ p.max_target_dns_queries
    · rw [if_pos h2] at heq
      injection heq with hq hr
      subst hq; subst hr
      exact ⟨le_refl _, rfl, rfl, rfl, fun e he => rfl,
        fun hok => Except.noConfusion hok⟩
    · rw [if_neg h2] at heq
      split at heq
      · injection heq with hq hr
        subst hq; subst hr
        exact ⟨le_refl _, rfl, rfl, rfl, fun e he => rfl,
          fun hok => Except.noConfusion hok⟩
      · injection heq with hq hr
        subst hq; subst hr
        refine ⟨Nat.le_succ _, rfl, rfl, rfl,
          fun e he => Except.noConfusion he, fun hok => ?_⟩
        show p.target_dns_total + 1 ≤ p.max_target_dns_queries
        omega


/-- streamBody without a cap (policy = None) never raises and returns the
full accumulated byte count: no response byte cap is applied. -/
theorem streamBody_no_cap (chunks : List Nat) (acc : Nat) :
    streamBody Option.none chunks acc = .ok (acc + chunks.sum) := by
  induction chunks generalizing acc with
  | nil => simp [streamBody]
  | cons c rest ih => simp [streamBody, ih, Nat.add_assoc]

/-- Without a cap, the retry loop can only end in success, a transport
error, or exhaustion: never in a policy violation. -/
theorem requestAttempts_no_cap_no_policy_error
    (category host urlS method : String) (bytes_out : Nat)
    (transport : Nat → AttemptOutcome) :
    ∀ fuel attempt lastExc ledger msg,
      (requestAttempts Option.none category host urlS method bytes_out
          transport attempt lastExc ledger fuel).2 ≠
        .error (.policyViolation msg) := by
  intro fuel
  induction fuel with
  | zero =>
      intro attempt lastExc ledger msg
      cases lastExc <;> simp [requestAttempts]
  | succ n ih =>
      intro attempt lastExc ledger msg
      cases htr : transport attempt with
      | success st chunks =>
          simp [requestAttempts, htr, streamBody_no_cap]
      | failure err =>
          simp only [requestAttempts, htr]
          exact ih (attempt + 1) (Option.some err) _ msg

/-- Every entry the retry loop appends carries the supplied category. -/
theorem requestAttempts_entries_type
    (cap : Option Nat) (category host urlS method : String) (bytes_out : Nat)
    (transport : Nat → AttemptOutcome) :
    ∀ fuel attempt lastExc ledger e,
      e ∈ (requestAttempts cap category host urlS method bytes_out transport
          attempt lastExc ledger fuel).1 →
      e ∈ ledger ∨ e.type = category := by
  intro fuel
  induction fuel with
  | zero =>
      intro attempt lastExc ledger e he
      cases lastExc <;> simp [requestAttempts] at he <;> exact Or.inl he
  | succ n ih =>
      intro attempt lastExc ledger e he
      cases htr : transport attempt with
      | success st chunks =>
          cases hsb : streamBody cap chunks 0 with
          | error msg =>
              simp [requestAttempts, htr, hsb] at he
              exact Or.inl he
          | ok total =>
              simp [requestAttempts, htr, hsb] at he
              rcases he with he | he
              · exact Or.inl he
              · exact Or.inr (by rw [he])
      | failure err =>
          simp only [requestAttempts, htr] at he
          rcases ih (attempt + 1) (Option.some err) _ e he with hm | ht
          · rcases List.mem_append.mp hm with h | h
            · exact Or.inl h
            · simp at h
              exact Or.inr (by rw [h])
          · exact Or.inr ht

/-- A first transport attempt that streams to completion appends exactly
the one success entry and returns the rebuilt response. -/
theorem requestAttempts_first_success
    (cap : Option Nat) (category host urlS method : String) (bytes_out : Nat)
    (transport : Nat → AttemptOutcome) (fuel attempt : Nat)
    (lastExc : Option String) (ledger : NetworkLedger)
    (st : Nat) (chunks : List Nat) (total : Nat)
    (htr : transport attempt = .success st chunks)
    (hsb : streamBody cap chunks 0 = .ok total) :
    requestAttempts cap category host urlS method bytes_out transport attempt
        lastExc ledger (fuel + 1) =
      (ledger ++ [{ type := category, destination_host := host,
                    url := Option.some urlS, method := Option.some method,
                    status := StatusVal.code st, bytes_out := bytes_out,
                    bytes_in := total }],
       .ok { status_code := st, bytes_in := total }) := by
  simp [requestAttempts, htr, hsb]

/-- When the stream exceeds the cap, the NetworkPolicyError re-raise path
(http.py lines 91-92) returns the policy violation with the ledger
untouched: no entry records the attempt. -/
theorem requestAttempts_cap_abort
    (cap : Option Nat) (category host urlS method : String) (bytes_out : Nat)
    (transport : Nat → AttemptOutcome) (fuel attempt : Nat)
    (lastExc : Option String) (ledger : NetworkLedger)
    (st : Nat) (chunks : List Nat) (msg : String)
    (htr : transport attempt = .success st chunks)
    (hsb : streamBody cap chunks 0 = .error msg) :
    requestAttempts cap category host urlS method bytes_out transport attempt
        lastExc ledger (fuel + 1) =
      (ledger, .error (.policyViolation msg)) := by
  simp [requestAttempts, htr, hsb]

/-- When every transport attempt fails, the retry loop appends one failure
entry per attempt: fuel entries in total. -/
theorem requestAttempts_all_fail_length
    (cap : Option Nat) (category host urlS method : String) (bytes_out : Nat)
    (transport : Nat → AttemptOutcome)
    (hfail : ∀ i, ∃ e, transport i = .failure e) :
    ∀ fuel attempt lastExc ledger,
      ((requestAttempts cap category host urlS method bytes_out transport
          attempt lastExc ledger fuel).1).length = ledger.length + fuel := by
  intro fuel
  induction fuel with
  | zero =>
      intro attempt lastExc ledger
      cases lastExc <;> simp [requestAttempts]
  | succ n ih =>
      intro attempt lastExc ledger
      obtain ⟨e, he⟩ := hfail attempt
      rw [requestAttempts, he]
      rw [ih (attempt + 1) (Option.some e) _]
      simp
      omega

/-- The guarded DNS client appends exactly one ledger entry on every
attempted query, whatever the outcome. -/
theorem resolve_records_length (policy : Option NetworkPolicy)
    (ledger : NetworkLedger) (resolver : Except String (List String))
    (domain record_type : String) :
    (DnsClient.resolve_records policy ledger resolver domain
        record_type).2.1.length = ledger.length + 1 := by
  unfold DnsClient.resolve_records
  cases policy with
  | none => cases resolver <;> simp
  | some p =>
      rcases hq : p.enforce_dns_query domain record_type with ⟨p1, r⟩
      cases r with
      | error e => simp [hq]
      | ok u => cases u; cases resolver <;> simp [hq]

/-- C6 counterexample: not every Policy Guard counter only increases over
a run. With the minute-window counter at 3 and 60 seconds elapsed, an
approved target request restarts the window and leaves the counter at
1 < 3: the counter decreased. -/
theorem minute_counter_decreases_at_window_boundary :
    (({ exampleLowNoise with minute_count := 3 }).enforce_http_request
        publicResolve 60 "GET" targetUrl).1.minute_count <
      ({ exampleLowNoise with minute_count := 3 }).minute_count := by
  decide

/-- C6 amended: the HTTP total, per-host, and DNS counters only increase
over a run and are incremented only after every admission check has
passed (any rejection leaves them unchanged); at the moment a target HTTP
call or a DNS query is approved, no counter exceeds its configured
ceiling. The minute-window counter is exempt from monotonicity: it resets
to zero when a new window starts. -/
theorem counters_monotone_and_bounded (p : NetworkPolicy)
    (resolve : String → Option (List IpInfo)) (now : Nat)
    (method : String) (url : Url) (qn rt : String) :
    (p.target_http_total ≤
      (p.enforce_http_request resolve now method url).1.target_http_total)
    ∧ (∀ h, p.target_http_per_host h ≤
        (p.enforce_http_request resolve now method url).1.target_http_per_host h)
    ∧ (p.target_dns_total ≤ (p.enforce_dns_query qn rt).1.target_dns_total)
    ∧ (∀ e, (p.enforce_http_request resolve now method url).2 = .error e →
        (p.enforce_http_request resolve now method url).1.target_http_total =
          p.target_http_total
        ∧ (p.enforce_http_request resolve now method url).1.target_http_per_host =
          p.target_http_per_host)
    ∧ (∀ e, (p.enforce_dns_query qn rt).2 = .error e →
        (p.enforce_dns_query qn rt).1.target_dns_total = p.target_dns_total)
    ∧ ((p.enforce_http_request resolve now method url).2 = .ok "target_http" →
        (p.enforce_http_request resolve now method url).1.target_http_total ≤
          p.max_target_http_requests_total
        ∧ (p.enforce_http_request resolve now method url).1.target_http_per_host
            url.hostOf ≤ p.max_target_http_per_host
        ∧ (p.enforce_http_request resolve now method url).1.minute_count ≤
          p.max_target_http_per_minute)
    ∧ ((p.enforce_dns_query qn rt).2 = .ok () →
        (p.enforce_dns_query qn rt).1.target_dns_total ≤
          p.max_target_dns_queries) := by
  have hh := http_counters_fact p resolve now method url
    (p.enforce_http_request resolve now method url).1
    (p.enforce_http_request resolve now method url).2 rfl
  have hd := dns_counters_fact p qn rt
    (p.enforce_dns_query qn rt).1 (p.enforce_dns_query qn rt).2 rfl
  exact ⟨hh.1, hh.2.1, hd.1, hh.2.2.2.1, hd.2.2.2.2.1, hh.2.2.2.2,
    hd.2.2.2.2.2⟩

/-- Witness for the amended C6: at the default low-noise guard an
approved GET to the apex leaves the total counter within its ceiling, and
an approved apex MX query leaves the DNS counter within its ceiling. -/
theorem counters_monotone_and_bounded_witness :
    ((exampleLowNoise.enforce_http_request publicResolve 0 "GET"
        targetUrl).1.target_http_total ≤
      exampleLowNoise.max_target_http_requests_total)
    ∧ ((exampleLowNoise.enforce_dns_query "example.com"
        "MX").1.target_dns_total ≤ exampleLowNoise.max_target_dns_queries) :=
  ⟨((counters_monotone_and_bounded exampleLowNoise publicResolve 0 "GET"
      targetUrl "example.com" "MX").2.2.2.2.2.1 rfl).1,
   (counters_monotone_and_bounded exampleLowNoise publicResolve 0 "GET"
      targetUrl "example.com" "MX").2.2.2.2.2.2 rfl⟩

/-- C2 counterexample: one attempted guarded HTTP operation (a GET to the
apex under the passive guard) is rejected by policy and produces zero
Ledger Entries, not exactly one: the violation propagates before any
ledger write. -/
theorem rejected_http_attempt_unledgered :
    (HttpClient.request (Option.some examplePassive) [] publicResolve 0
        fourByteTransport 2 "GET" "https://example.com" targetUrl
        Option.none Option.none).2.2 =
      .error (.policyViolation "target HTTP is disabled in passive mode")
    ∧ (HttpClient.request (Option.some examplePassive) [] publicResolve 0
        fourByteTransport 2 "GET" "https://example.com" targetUrl
        Option.none Option.none).2.1 = [] :=
  ⟨rfl, rfl⟩

/-- C2 amended: every attempted guarded DNS operation appends exactly one
Ledger Entry before its result is returned; a guarded HTTP operation
rejected by the Policy Guard at admission appends none (the violation is
raised to the caller before any ledger write); an approved HTTP operation
whose first transport attempt streams to completion appends exactly one;
and an approved HTTP operation whose every transport attempt fails at
transport level appends one entry per attempt, retries + 1 in total. -/
theorem ledger_entries_per_attempt (p : NetworkPolicy)
    (ledger : NetworkLedger) (resolver : Except String (List String))
    (resolve : String → Option (List IpInfo)) (now : Nat)
    (transport : Nat → AttemptOutcome) (retries : Nat)
    (method urlS : String) (url : Url) (headers json : Option String)
    (qn rt : String) :
    ((DnsClient.resolve_records (Option.some p) ledger resolver qn
        rt).2.1.length = ledger.length + 1)
    ∧ (∀ p1 e, p.enforce_http_request resolve now (upperStr method) url =
          (p1, .error e) →
        HttpClient.request (Option.some p) ledger resolve now transport
            retries method urlS url headers json =
          (Option.some p1, ledger, .error (.policyViolation e)))
    ∧ (∀ p1 cat st chunks total,
        p.enforce_http_request resolve now (upperStr method) url =
          (p1, .ok cat) →
        transport 0 = .success st chunks →
        streamBody (Option.some p1.max_bytes_per_response) chunks 0 =
          .ok total →
        (HttpClient.request (Option.some p) ledger resolve now transport
            retries method urlS url headers json).2.1.length =
          ledger.length + 1)
    ∧ (∀ p1 cat,
        p.enforce_http_request resolve now (upperStr method) url =
          (p1, .ok cat) →
        (∀ i, ∃ e, transport i = .failure e) →
        (HttpClient.request (Option.some p) ledger resolve now transport
            retries method urlS url headers json).2.1.length =
          ledger.length + (retries + 1)) := by
  refine ⟨resolve_records_length _ _ _ _ _, ?_, ?_, ?_⟩
  · intro p1 e henf
    simp only [HttpClient.request]
    rw [henf]
  · intro p1 cat st chunks total henf htr hsb
    simp only [HttpClient.request]
    rw [henf]
    dsimp only
    rw [requestAttempts_first_success (Option.some p1.max_bytes_per_response)
      cat url.hostOf urlS (upperStr method) (bytesOutOf headers json)
      transport retries 0 Option.none ledger st chunks total htr hsb]
    simp
  · intro p1 cat henf hfail
    simp only [HttpClient.request]
    rw [henf]
    exact requestAttempts_all_fail_length
      (Option.some p1.max_bytes_per_response) cat url.hostOf urlS
      (upperStr method) (bytesOutOf headers json) transport hfail
      (retries + 1) 0 Option.none ledger

/-- Witness for the amended C2: a DNS TXT query appends exactly one entry;
a low-noise GET to the apex with a transport that always times out and
retries = 2 appends three entries, one per attempt. -/
theorem ledger_entries_per_attempt_witness :
    ((DnsClient.resolve_records (Option.some examplePassive) []
        (.ok ["v=spf1 -all"]) "example.com" "TXT").2.1.length = 0 + 1)
    ∧ (HttpClient.request (Option.some exampleLowNoise) [] publicResolve 0
        (fun _ => .failure "timeout") 2 "GET" "https://example.com"
        targetUrl Option.none Option.none).2.1.length = 0 + (2 + 1) :=
  ⟨(ledger_entries_per_attempt examplePassive [] (.ok ["v=spf1 -all"])
      publicResolve 0 (fun _ => .failure "timeout") 2 "GET"
      "https://example.com" targetUrl Option.none Option.none "example.com"
      "TXT").1,
   (ledger_entries_per_attempt exampleLowNoise [] (.ok ["v=spf1 -all"])
      publicResolve 0 (fun _ => .failure "timeout") 2 "GET"
      "https://example.com" targetUrl Option.none Option.none "example.com"
      "TXT").2.2.2
     (exampleLowNoise.enforce_http_request publicResolve 0 (upperStr "GET")
       targetUrl).1 "target_http" rfl (fun _ => ⟨"timeout", rfl⟩)⟩

/-- C4 counterexample: with the byte cap at 3 and a streamed 4-byte body,
the guarded client raises the byte-cap policy violation but the Ledger
stays empty: no entry records the 4 partial bytes with success = false. -/
theorem byte_cap_abort_unledgered :
    (HttpClient.request
        (Option.some { exampleLowNoise with max_bytes_per_response := 3 }) []
        publicResolve 0 fourByteTransport 0 "GET" "https://example.com"
        targetUrl Option.none Option.none).2.2 =
      .error (.policyViolation "response byte cap exceeded")
    ∧ (HttpClient.request
        (Option.some { exampleLowNoise with max_bytes_per_response := 3 }) []
        publicResolve 0 fourByteTransport 0 "GET" "https://example.com"
        targetUrl Option.none Option.none).2.1 = [] :=
  ⟨rfl, rfl⟩

/-- C4 amended: when the accumulated streamed size exceeds the configured
maximum before the stream completes, the guarded client aborts the
transfer and raises the byte-cap policy violation, and the re-raise path
skips the ledger write entirely: the Ledger is returned unchanged, so the
partial bytes received are not recorded. -/
theorem byte_cap_aborts_without_entry (p p1 : NetworkPolicy)
    (ledger : NetworkLedger) (resolve : String → Option (List IpInfo))
    (now : Nat) (transport : Nat → AttemptOutcome) (retries : Nat)
    (method urlS : String) (url : Url) (headers json : Option String)
    (cat : String) (st : Nat) (chunks : List Nat) (msg : String)
    (henf : p.enforce_http_request resolve now (upperStr method) url =
      (p1, .ok cat))
    (htr : transport 0 = .success st chunks)
    (hsb : streamBody (Option.some p1.max_bytes_per_response) chunks 0 =
      .error msg) :
    HttpClient.request (Option.some p) ledger resolve now transport retries
        method urlS url headers json =
      (Option.some p1, ledger, .error (.policyViolation msg)) := by
  simp only [HttpClient.request]
  rw [henf]
  dsimp only
  rw [requestAttempts_cap_abort (Option.some p1.max_bytes_per_response) cat
    url.hostOf urlS (upperStr method) (bytesOutOf headers json) transport
    retries 0 Option.none ledger st chunks msg htr hsb]

/-- Witness for the amended C4: cap 3, one 4-byte chunk, low-noise guard:
the request aborts with the byte-cap violation and the ledger is empty. -/
theorem byte_cap_aborts_without_entry_witness :
    HttpClient.request
        (Option.some { exampleLowNoise with max_bytes_per_response := 3 }) []
        publicResolve 0 fourByteTransport 2 "GET" "https://example.com"
        targetUrl Option.none Option.none =
      (Option.some ({ exampleLowNoise with
          max_bytes_per_response := 3 }.enforce_http_request publicResolve 0
          (upperStr "GET") targetUrl).1,
       [], .error (.policyViolation "response byte cap exceeded")) := by
  exact byte_cap_aborts_without_entry _ _ [] publicResolve 0
    fourByteTransport 2 "GET" "https://example.com" targetUrl Option.none
    Option.none "target_http" 200 [4] "response byte cap exceeded" rfl rfl rfl

/-- C10: a guarded HTTP client constructed without a Policy Guard
performs no admission check and applies no response byte cap: the policy
slot stays empty, no policy violation can ever be raised, every ledgered
attempt is categorized third_party_http, and a first transport attempt
that succeeds is returned whole (all streamed bytes accumulated,
regardless of size) with exactly one third_party_http ledger entry. -/
theorem no_policy_no_enforcement (ledger : NetworkLedger)
    (resolve : String → Option (List IpInfo)) (now : Nat)
    (transport : Nat → AttemptOutcome) (retries : Nat)
    (method urlS : String) (url : Url) (headers json : Option String) :
    ((HttpClient.request Option.none ledger resolve now transport retries
        method urlS url headers json).1 = Option.none)
    ∧ (∀ msg, (HttpClient.request Option.none ledger resolve now transport
        retries method urlS url headers json).2.2 ≠
          .error (.policyViolation msg))
    ∧ (∀ e, e ∈ (HttpClient.request Option.none ledger resolve now transport
        retries method urlS url headers json).2.1 →
        e ∈ ledger ∨ e.type = "third_party_http")
    ∧ (∀ st chunks, transport 0 = .success st chunks →
        HttpClient.request Option.none ledger resolve now transport retries
            method urlS url headers json =
          (Option.none,
           ledger ++ [{ type := "third_party_http",
                        destination_host := url.hostOf,
                        url := Option.some urlS,
                        method := Option.some (upperStr method),
                        status := StatusVal.code st,
                        bytes_out := bytesOutOf headers json,
                        bytes_in := chunks.sum }],
           .ok { status_code := st, bytes_in := chunks.sum })) := by
  refine ⟨rfl, ?_, ?_, ?_⟩
  · intro msg
    exact requestAttempts_no_cap_no_policy_error "third_party_http"
      url.hostOf urlS (upperStr method) (bytesOutOf headers json) transport
      (retries + 1) 0 Option.none ledger msg
  · intro e he
    exact requestAttempts_entries_type Option.none "third_party_http"
      url.hostOf urlS (upperStr method) (bytesOutOf headers json) transport
      (retries + 1) 0 Option.none ledger e he
  · intro st chunks htr
    simp only [HttpClient.request]
    rw [requestAttempts_first_success Option.none "third_party_http"
      url.hostOf urlS (upperStr method) (bytesOutOf headers json) transport
      retries 0 Option.none ledger st chunks chunks.sum htr
      (by simpa using streamBody_no_cap chunks 0)]

/-- Witness for C10: the policy-free client streams a 4-byte body whole
with one third_party_http entry. -/
theorem no_policy_no_enforcement_witness :
    HttpClient.request Option.none [] publicResolve 0 fourByteTransport 2
        "GET" "https://example.com" targetUrl Option.none Option.none =
      (Option.none,
       [{ type := "third_party_http", destination_host := targetUrl.hostOf,
          url := Option.some "https://example.com",
          method := Option.some (upperStr "GET"),
          status := StatusVal.code 200, bytes_out := bytesOutOf Option.none
            Option.none,
          bytes_in := [4].sum }],
       .ok { status_code := 200, bytes_in := [4].sum }) :=
  (no_policy_no_enforcement [] publicResolve 0 fourByteTransport 2 "GET"
    "https://example.com" targetUrl Option.none Option.none).2.2.2 200 [4] rfl
